import Mathlib

/-!
Shallow embedding of the IRLS MAP super-resolution solver core
(`src/solvers/irls_map_solver.cpp`, `src/optimization/alglib_irls_objective.cpp`,
`src/optimization/objective_function.h`).

Pixel values (C++ `double`) are modelled as rationals `ℚ`; image buffers are
flat lists indexed by linear pixel index, matching `GetPixelValue(channel, i)`
access.  External collaborators that the solver only calls through their
interface (the image model's `ApplyToImage` / `ApplyTransposeToImage`, OpenCV
`ResizeImage`, the polymorphic regularizers, and `std::sqrt` from the math
library) are fields of the solver state holding arbitrary functions, so every
theorem quantifies over all of their behaviours.
-/

namespace SuperResolution

/-- `GetPixelValue` on a single-channel flat buffer: read pixel `i`, out-of-range
reads default to 0 (never exercised by in-range loops). -/
def getPix (img : List ℚ) (i : Nat) : ℚ :=
  img.getD i 0

/-- A polymorphic regularizer (`Regularizer` interface): `ApplyToImage` maps an
estimate to a per-pixel residual vector, `GetDerivatives` maps an estimate and a
per-pixel upstream-coefficient vector to a per-pixel derivative vector. -/
structure Regularizer where
  applyToImage : List ℚ → List ℚ
  getDerivatives : List ℚ → List ℚ → List ℚ

/-- State and configuration of `IrlsMapSolver`.

* `numPixels` — `GetNumPixels()`, the HR pixel count.
* `numImages` — `GetNumImages()`, the number of LR observations.
* `obsPixel i c p` — `observations_.at(i).GetPixelValue(c, p)`.
* `imageModelApply i` — `image_model_.ApplyToImage(·, i)` on an HR buffer.
* `resizeToHR` — `ImageData::ResizeImage(image_size_, cv::INTER_NEAREST)`,
  the re-upsample applied to the degraded image.
* `resizeDown` — `ImageData::ResizeImage(image_size_ / scale)` applied to the
  residual image before the transpose.
* `imageModelApplyTranspose i` — `image_model_.ApplyTransposeToImage(·, i)`.
* `regularizers` — the `(regularizer, regularization_parameter)` list.
* `irlsWeights` — the `irls_weights_` member.
* `sqrtFn` — the math library `sqrt` applied to weights (abstract, since the
  C++ call is floating-point). -/
structure IrlsMapSolver where
  numPixels : Nat
  numImages : Nat
  obsPixel : Nat → Nat → Nat → ℚ
  imageModelApply : Nat → List ℚ → List ℚ
  resizeToHR : List ℚ → List ℚ
  resizeDown : List ℚ → List ℚ
  imageModelApplyTranspose : Nat → List ℚ → List ℚ
  regularizers : List (Regularizer × ℚ)
  irlsWeights : List ℚ
  sqrtFn : ℚ → ℚ

/-- `IrlsMapSolver::ComputeDataTermAnalyticalDiff` (irls_map_solver.cpp lines
125-173), for a non-null estimate: degrade the estimate through the image model
and resize back to HR; accumulate the squared per-pixel residuals against the
observation while collecting the residual vector; resize the residual image
down by the scale factor, apply the transpose model, and emit
`2 * residual_image[p]` per pixel as the gradient. -/
def computeDataTermAnalyticalDiff (s : IrlsMapSolver) (imageIndex channelIndex : Nat)
    (estimatedImageData : List ℚ) : ℚ × List ℚ :=
  let degradedHrImage := s.resizeToHR (s.imageModelApply imageIndex estimatedImageData)
  let sumAndResiduals := (List.range s.numPixels).foldl
    (fun (acc : ℚ × List ℚ) i =>
      let residual := getPix degradedHrImage i - s.obsPixel imageIndex channelIndex i
      (acc.1 + residual * residual, acc.2 ++ [residual]))
    (0, [])
  let residualImage :=
    s.imageModelApplyTranspose imageIndex (s.resizeDown sumAndResiduals.2)
  let gradient := (List.range s.numPixels).map
    (fun pixelIndex => 2 * getPix residualImage pixelIndex)
  (sumAndResiduals.1, gradient)

/-- The body of the per-pixel cost loop of
`IrlsMapSolver::ComputeRegularizationAnalyticalDiff` (irls_map_solver.cpp lines
193-200), carried verbatim from the source: `i` is the OUTER regularizer loop
index, and the source reads and writes `residuals[i]` — not
`residuals[pixel_index]` — inside the pixel loop. -/
def regCostLoopStep (s : IrlsMapSolver) (i : Nat) (regularizationParameter : ℚ)
    (acc : List ℚ × ℚ) (pixelIndex : Nat) : List ℚ × ℚ :=
  let weight := s.sqrtFn (s.irlsWeights.getD pixelIndex 0)
  let residual := regularizationParameter * weight * acc.1.getD i 0
  (acc.1.set i residual, acc.2 + residual * residual)

/-- `IrlsMapSolver::ComputeRegularizationAnalyticalDiff` (irls_map_solver.cpp
lines 175-230), for a non-null estimate: for each regularizer `i`, run the
per-pixel cost loop (see `regCostLoopStep`), then build the constant terms
`2 * regularization_parameter * irls_weights_[p] * residuals[p]` from the
post-loop residual vector, pass them to `GetDerivatives`, and accumulate the
returned derivatives into the gradient. -/
def computeRegularizationAnalyticalDiff (s : IrlsMapSolver)
    (estimatedImageData : List ℚ) : ℚ × List ℚ :=
  s.regularizers.enum.foldl
    (fun (acc : ℚ × List ℚ) ir =>
      let i := ir.1
      let regularizationParameter := ir.2.2
      let residuals0 := ir.2.1.applyToImage estimatedImageData
      let loopOut := (List.range s.numPixels).foldl
        (regCostLoopStep s i regularizationParameter) (residuals0, 0)
      let constTerms := (List.range s.numPixels).map
        (fun pixelIndex =>
          2 * regularizationParameter * s.irlsWeights.getD pixelIndex 0 *
            loopOut.1.getD pixelIndex 0)
      let derivs := ir.2.1.getDerivatives estimatedImageData constTerms
      (acc.1 + loopOut.2,
       (List.range s.numPixels).map
         (fun pixelIndex => acc.2.getD pixelIndex 0 + derivs.getD pixelIndex 0)))
    (0, List.replicate s.numPixels 0)

/-- `ComputeDataTermAnalyticalDiff` including the `CHECK_NOTNULL` precondition
on the estimate pointer (line 131): a null pointer is `none` and aborts fatally
(`none` result) before any cost or gradient is produced. -/
def computeDataTermAnalyticalDiffChecked (s : IrlsMapSolver)
    (imageIndex channelIndex : Nat) (estimatedImageData : Option (List ℚ)) :
    Option (ℚ × List ℚ) :=
  match estimatedImageData with
  | none => none
  | some est => some (computeDataTermAnalyticalDiff s imageIndex channelIndex est)

/-- `ComputeRegularizationAnalyticalDiff` including the `CHECK_NOTNULL`
precondition on the estimate pointer (line 179). -/
def computeRegularizationAnalyticalDiffChecked (s : IrlsMapSolver)
    (estimatedImageData : Option (List ℚ)) : Option (ℚ × List ℚ) :=
  match estimatedImageData with
  | none => none
  | some est => some (computeRegularizationAnalyticalDiff s est)

/-- The gradient-zeroing loop shared by both objective-function variants
(`for (int i = 0; i < num_pixels; ++i) gradient[i] = 0;`): writes 0 into the
first `n` slots of the caller-supplied buffer. -/
def zeroLoop (gradient : List ℚ) (n : Nat) : List ℚ :=
  (List.range n).foldl (fun acc i => acc.set i 0) gradient

/-- The gradient accumulation loop shared by both objective-function variants
(`for (int i = 0; i < num_pixels; ++i) gradient[i] += inc[i];`). -/
def addIntoLoop (gradient inc : List ℚ) (n : Nat) : List ℚ :=
  (List.range n).foldl (fun acc i => acc.set i (acc.getD i 0 + inc.getD i 0)) gradient

/-- `ComputeDataTermAnalyticalDiff` viewed as the solver-pointer call it is in
C++: the method is `const`, so the solver state comes back unchanged alongside
the cost/gradient pair. -/
def computeDataTermAnalyticalDiffS (s : IrlsMapSolver) (imageIndex channelIndex : Nat)
    (estimatedImageData : List ℚ) : (ℚ × List ℚ) × IrlsMapSolver :=
  (computeDataTermAnalyticalDiff s imageIndex channelIndex estimatedImageData, s)

/-- `ComputeRegularizationAnalyticalDiff` viewed as the solver-pointer call it
is in C++ (a `const` method): state returned unchanged. -/
def computeRegularizationAnalyticalDiffS (s : IrlsMapSolver)
    (estimatedImageData : List ℚ) : (ℚ × List ℚ) × IrlsMapSolver :=
  (computeRegularizationAnalyticalDiff s estimatedImageData, s)

/-- `AlglibObjectiveFunctionAnalyticalDiff` (irls_map_solver.cpp lines 22-60)
as a transformer of the solver state reached through the context pointer:
zero the residual sum and the first `num_pixels` gradient slots, add the data
term of every image (channel 0), then add the regularization term.  The inputs
`residualSum0` / `gradient0` are the contents of the caller-owned output
buffers before the call. -/
def alglibObjectiveFunctionAnalyticalDiffS (s : IrlsMapSolver)
    (estimatedData : List ℚ) (residualSum0 : ℚ) (gradient0 : List ℚ) :
    (ℚ × List ℚ) × IrlsMapSolver :=
  let residualSum1 : ℚ := 0
  let gradient1 := zeroLoop gradient0 s.numPixels
  let afterData := (List.range s.numImages).foldl
    (fun (acc : (ℚ × List ℚ) × IrlsMapSolver) imageIndex =>
      let call := computeDataTermAnalyticalDiffS acc.2 imageIndex 0 estimatedData
      ((acc.1.1 + call.1.1, addIntoLoop acc.1.2 call.1.2 s.numPixels), call.2))
    ((residualSum1, gradient1), s)
  let call := computeRegularizationAnalyticalDiffS afterData.2 estimatedData
  ((afterData.1.1 + call.1.1, addIntoLoop afterData.1.2 call.1.2 s.numPixels), call.2)

/-- `AlglibObjectiveFunction` (alglib_irls_objective.cpp lines 14-51), the
alternate objective variant.  Its callees `ComputeDataTerm` and
`ComputeRegularization` are declared in a header not among the source files, so
they are taken as parameters; the zeroing and accumulation structure is the
translated source. -/
def alglibObjectiveFunction (computeDataTerm : Nat → List ℚ → ℚ × List ℚ)
    (computeRegularization : List ℚ → ℚ × List ℚ) (numPixels numImages : Nat)
    (estimatedData : List ℚ) (residualSum0 : ℚ) (gradient0 : List ℚ) :
    ℚ × List ℚ :=
  let residualSum1 : ℚ := 0
  let gradient1 := zeroLoop gradient0 numPixels
  let afterData := (List.range numImages).foldl
    (fun (acc : ℚ × List ℚ) imageIndex =>
      let call := computeDataTerm imageIndex estimatedData
      (acc.1 + call.1, addIntoLoop acc.2 call.2 numPixels))
    (residualSum1, gradient1)
  let call := computeRegularization estimatedData
  (afterData.1 + call.1, addIntoLoop afterData.2 call.2 numPixels)

/-- `AlglibSolverIterationCallback` as defined in irls_map_solver.cpp (lines
64-71), the variant that `Solve` in the same translation unit registers with
`mincgoptimize`: its body is a `LOG(INFO)` plus a `TODO: implement the
reweighting computation here.` — it leaves the solver state untouched. -/
def alglibSolverIterationCallback (estimatedData : List ℚ) (residualSum : ℚ)
    (s : IrlsMapSolver) : IrlsMapSolver :=
  s

/-- Modelled from the spec: `UpdateIrlsWeights` is invoked by the iteration
callback of alglib_irls_objective.cpp but its definition is not among the
source files.  Per spec section 4.3 it recomputes every pixel's weight in place
as a decreasing function of that pixel's current regularization residual
magnitude, e.g. `weight = 1 / max(|residual|, epsilon)` with a floor
`epsilon > 0`; the residual is taken from the first configured regularizer's
stencil. -/
def updateIrlsWeights (epsilon : ℚ) (s : IrlsMapSolver) (estimatedData : List ℚ) :
    IrlsMapSolver :=
  let residuals := match s.regularizers with
    | [] => List.replicate s.numPixels 0
    | reg :: _ => reg.1.applyToImage estimatedData
  let newWeights := (List.range s.numPixels).map
    (fun pixelIndex => 1 / max |residuals.getD pixelIndex 0| epsilon)
  { s with irlsWeights := newWeights }

/-- `AlglibSolverIterationCallback` as defined in alglib_irls_objective.cpp
(lines 53-62), the variant that refreshes the IRLS weights from the reported
estimate. -/
def alglibSolverIterationCallbackObjVariant (epsilon : ℚ) (estimatedData : List ℚ)
    (residualSum : ℚ) (s : IrlsMapSolver) : IrlsMapSolver :=
  updateIrlsWeights epsilon s estimatedData

/-- The weight initialization that opens `IrlsMapSolver::Solve`
(irls_map_solver.cpp lines 73-76): `irls_weights_.resize(GetNumPixels())`
followed by `std::fill(..., 1.0)`. -/
def solveInit (s : IrlsMapSolver) : IrlsMapSolver :=
  { s with irlsWeights := List.replicate s.numPixels 1 }

/-- `IrlsMapSolver::Solve` (irls_map_solver.cpp lines 73-123) up to the
external minimizer: initialize the weights, then hand the initialized solver
state (whose bound callbacks `mincgoptimize` will invoke) and the initial
estimate to the minimizer, returning its final vector. -/
def solve (minimize : IrlsMapSolver → List ℚ → List ℚ) (s : IrlsMapSolver)
    (initialEstimate : List ℚ) : List ℚ :=
  minimize (solveInit s) initialEstimate

/-- The per-regularizer cost as the spec words it (section 4.3 step 2): the
cost contribution is `lambda_k ^ 2 * weight_p * residual_p ^ 2` summed over all
pixels `p`, with `residual_p` the `p`-th entry of `ApplyToImage(estimate)`;
summed over every configured regularizer.  Written from the spec, for
comparison against `computeRegularizationAnalyticalDiff`. -/
def claimedRegularizationCost (s : IrlsMapSolver) (est : List ℚ) : ℚ :=
  (s.regularizers.map (fun rl =>
    let residuals := rl.1.applyToImage est
    ((List.range s.numPixels).map
      (fun p => rl.2 ^ 2 * s.irlsWeights.getD p 0 * residuals.getD p 0 ^ 2)).sum)).sum

/-- The upstream derivative coefficients as the spec words them (section 4.3
step 3) for regularizer `k`: per pixel `p`,
`2 * lambda_k * weight_p * scaled_residual_p` where
`scaled_residual_p = lambda_k * sqrt(weight_p) * residual_p`.  Written from the
spec, for comparison against the constants the source passes to
`GetDerivatives`. -/
def claimedUpstreamCoefficients (s : IrlsMapSolver) (k : Nat) (est : List ℚ) :
    List ℚ :=
  match s.regularizers.get? k with
  | none => []
  | some rl =>
    let residuals := rl.1.applyToImage est
    (List.range s.numPixels).map (fun p =>
      let scaledResidual := rl.2 * s.sqrtFn (s.irlsWeights.getD p 0) * residuals.getD p 0
      2 * rl.2 * s.irlsWeights.getD p 0 * scaledResidual)

/-- A regularizer whose residual vector is the estimate itself and whose
`GetDerivatives` returns the upstream coefficients unchanged — the simplest
member of the polymorphic family, used to exhibit concrete behaviour. -/
def idRegularizer : Regularizer :=
  { applyToImage := fun est => est
    getDerivatives := fun _ coefficients => coefficients }

/-- A concrete two-pixel solver state: one observation, identity image model
and resizes, one `idRegularizer` with `regularization_parameter = 3`, the
freshly initialized weight table `[1, 1]` (on which `sqrt` is the identity). -/
def demoSolver : IrlsMapSolver :=
  { numPixels := 2
    numImages := 1
    obsPixel := fun _ _ _ => 0
    imageModelApply := fun _ img => img
    resizeToHR := fun img => img
    resizeDown := fun img => img
    imageModelApplyTranspose := fun _ img => img
    regularizers := [(idRegularizer, 3)]
    irlsWeights := [1, 1]
    sqrtFn := fun w => w }

/-- The residual the data-term loop computes at pixel `i`: degraded and
re-upsampled estimate pixel minus observation pixel, compared at HR
resolution. -/
def dataResidual (s : IrlsMapSolver) (imageIndex channelIndex : Nat)
    (est : List ℚ) (i : Nat) : ℚ :=
  getPix (s.resizeToHR (s.imageModelApply imageIndex est)) i -
    s.obsPixel imageIndex channelIndex i

/-- The full HR residual vector of the data term. -/
def dataResiduals (s : IrlsMapSolver) (imageIndex channelIndex : Nat)
    (est : List ℚ) : List ℚ :=
  (List.range s.numPixels).map (dataResidual s imageIndex channelIndex est)

lemma foldl_square_append (f : Nat → ℚ) (n : Nat) :
    (List.range n).foldl
      (fun (acc : ℚ × List ℚ) i => (acc.1 + f i * f i, acc.2 ++ [f i])) (0, [])
      = (∑ i in Finset.range n, f i ^ 2, (List.range n).map f) := by
  induction n with
  | zero => simp
  | succ n ih =>
      rw [List.range_succ, List.foldl_append, ih]
      simp [Finset.sum_range_succ, pow_two]

lemma zeroLoop_succ (g : List ℚ) (n : Nat) :
    zeroLoop g (n + 1) = (zeroLoop g n).set n 0 := by
  simp [zeroLoop, List.range_succ]

lemma zeroLoop_eq (g : List ℚ) :
    ∀ n, n ≤ g.length → zeroLoop g n = List.replicate n 0 ++ g.drop n := by
  intro n
  induction n with
  | zero => simp [zeroLoop]
  | succ n ih =>
      intro h
      have hlt : n < g.length := h
      have hrep : (List.replicate n (0 : ℚ)).length ≤ n := by simp
      rw [zeroLoop_succ, ih (Nat.le_of_succ_le h),
        List.set_append_right n 0 hrep, List.length_replicate, Nat.sub_self,
        List.drop_eq_getElem_cons hlt, List.set_cons_zero,
        List.replicate_succ', List.append_assoc, List.singleton_append]

lemma zeroLoop_eq_replicate (g : List ℚ) (n : Nat) (h : g.length = n) :
    zeroLoop g n = List.replicate n 0 := by
  rw [zeroLoop_eq g n (le_of_eq h.symm), ← h, List.drop_length, List.append_nil]

lemma foldl_state_const {α β : Type}
    (f : (α × IrlsMapSolver) → β → (α × IrlsMapSolver))
    (hf : ∀ a b, (f a b).2 = a.2) :
    ∀ (l : List β) (init : α × IrlsMapSolver), (l.foldl f init).2 = init.2 := by
  intro l
  induction l with
  | nil => intro init; rfl
  | cons b t ih => intro init; rw [List.foldl_cons, ih, hf]

lemma alglibObjectiveS_state (s : IrlsMapSolver) (est : List ℚ) (rs0 : ℚ)
    (g0 : List ℚ) :
    (alglibObjectiveFunctionAnalyticalDiffS s est rs0 g0).2 = s := by
  simp only [alglibObjectiveFunctionAnalyticalDiffS,
    computeRegularizationAnalyticalDiffS, computeDataTermAnalyticalDiffS]
  refine foldl_state_const _ (fun a b => ?_) _ _
  rfl

/-- Claim C1: the regularization cost is claimed to equal, for every configured
regularizer `k`, the sum over all pixels `p` of
`lambda_k ^ 2 * weight_p * residual_p ^ 2`.  Refuted at a concrete input: on
`demoSolver` (one regularizer, `lambda = 3`, weights `[1, 1]`) with estimate
`[1, 2]`, the source computes 90 — the cost loop reads and rescales
`residuals[i]` with `i` the regularizer index instead of `residuals[pixel_index]`
— while the claimed per-pixel formula gives `9 * 1 + 9 * 4 = 45`. -/
theorem regularizationCost_diverges_from_claim :
    (computeRegularizationAnalyticalDiff demoSolver [1, 2]).1
        ≠ claimedRegularizationCost demoSolver [1, 2] ∧
    (computeRegularizationAnalyticalDiff demoSolver [1, 2]).1 = 90 ∧
    claimedRegularizationCost demoSolver [1, 2] = 45 := by
  refine ⟨?_, ?_, ?_⟩ <;>
    norm_num [computeRegularizationAnalyticalDiff, regCostLoopStep,
      claimedRegularizationCost, demoSolver, idRegularizer, List.enum,
      (by decide : List.range 2 = [0, 1])]

/-- Claim C2: the upstream coefficient handed to `GetDerivatives` is claimed to
be `2 * lambda_k * weight_p * scaled_residual_p` at every pixel `p`.  Refuted at
a concrete input: on `demoSolver` the regularizer's `GetDerivatives` returns its
coefficient argument unchanged and the gradient starts at zero, so the returned
gradient is exactly the coefficient vector the source built; the source yields
`[54, 12]` (it reads the residual vector corrupted by the cost loop's
`residuals[i]` writes: entry 0 was rescaled twice and entry 1 never), while the
claimed coefficients are `[2*3*1*(3*1*1), 2*3*1*(3*1*2)] = [18, 36]`. -/
theorem regularizationCoefficients_diverge_from_claim :
    (computeRegularizationAnalyticalDiff demoSolver [1, 2]).2
        ≠ claimedUpstreamCoefficients demoSolver 0 [1, 2] ∧
    (computeRegularizationAnalyticalDiff demoSolver [1, 2]).2 = [54, 12] ∧
    claimedUpstreamCoefficients demoSolver 0 [1, 2] = [18, 36] := by
  refine ⟨?_, ?_, ?_⟩ <;>
    norm_num [computeRegularizationAnalyticalDiff, regCostLoopStep,
      claimedUpstreamCoefficients, demoSolver, idRegularizer, List.enum,
      (by decide : List.range 2 = [0, 1])]

/-- Claim C3: for every solver state, frame and estimate,
`ComputeDataTermAnalyticalDiff` returns as cost the sum over all HR pixels of
the squared residual (degraded-and-re-upsampled estimate pixel minus
observation pixel), and as gradient `2 *` the transpose-model image of the
residual vector resampled down to the LR domain, per pixel. -/
theorem computeDataTerm_matches_spec (s : IrlsMapSolver)
    (imageIndex channelIndex : Nat) (est : List ℚ) :
    (computeDataTermAnalyticalDiff s imageIndex channelIndex est).1
      = ∑ i in Finset.range s.numPixels,
          dataResidual s imageIndex channelIndex est i ^ 2 ∧
    (computeDataTermAnalyticalDiff s imageIndex channelIndex est).2
      = (List.range s.numPixels).map (fun p =>
          2 * getPix (s.imageModelApplyTranspose imageIndex
              (s.resizeDown (dataResiduals s imageIndex channelIndex est))) p) := by
  have key := foldl_square_append (dataResidual s imageIndex channelIndex est)
    s.numPixels
  simp only [dataResidual] at key
  simp [computeDataTermAnalyticalDiff, key, dataResiduals, dataResidual]

/-- Claim C4: the iteration-report callback registered by `Solve` — the one
defined in the same translation unit, irls_map_solver.cpp lines 64-71 — is an
unimplemented stub: it returns the solver state unchanged for every reported
estimate, so it never invokes `UpdateIrlsWeights`; by contrast the spec's
weight refresh (modelled in `updateIrlsWeights`) changes the weight table on
the concrete state `demoSolver` with reported estimate `[5, 0]`. -/
theorem iterationCallback_is_stub (est : List ℚ) (rs : ℚ) (s : IrlsMapSolver) :
    alglibSolverIterationCallback est rs s = s ∧
    (updateIrlsWeights (1 / 100) demoSolver [5, 0]).irlsWeights
      ≠ demoSolver.irlsWeights := by
  refine ⟨rfl, ?_⟩
  norm_num [updateIrlsWeights, demoSolver, idRegularizer,
    (by decide : List.range 2 = [0, 1])]

/-- Claim C5: `Solve` hands the minimizer a solver state whose IRLS weight
table was first set to length `num_pixels` with every entry 1.0 — so the
initialization precedes the minimizer call and every iteration-report call. -/
theorem solve_initializes_weights (minimize : IrlsMapSolver → List ℚ → List ℚ)
    (s : IrlsMapSolver) (initialEstimate : List ℚ) :
    solve minimize s initialEstimate = minimize (solveInit s) initialEstimate ∧
    (solveInit s).irlsWeights.length = s.numPixels ∧
    ∀ i, i < s.numPixels → (solveInit s).irlsWeights.getD i 0 = 1 := by
  refine ⟨rfl, by simp [solveInit], ?_⟩
  intro i hi
  simp [solveInit, List.getElem?_replicate, hi]

/-- Witness for C5: on the concrete `demoSolver`, pixel 0 of the initialized
weight table is 1. -/
theorem solve_initializes_weights_witness :
    0 < demoSolver.numPixels ∧
    (solveInit demoSolver).irlsWeights.getD 0 0 = 1 :=
  ⟨by norm_num [demoSolver],
   (solve_initializes_weights (fun _ e => e) demoSolver []).2.2 0
     (by norm_num [demoSolver])⟩

/-- Claim C6: evaluating the objective and gradient — the data term, the
regularization term, and the full ALGLIB objective callback that combines
them — returns the solver state with the IRLS weight table unchanged: the
weights are only read, never written, during objective evaluation. -/
theorem objectiveEvaluation_preserves_weights (s : IrlsMapSolver)
    (imageIndex channelIndex : Nat) (est : List ℚ) (rs0 : ℚ) (g0 : List ℚ) :
    (computeDataTermAnalyticalDiffS s imageIndex channelIndex est).2.irlsWeights
      = s.irlsWeights ∧
    (computeRegularizationAnalyticalDiffS s est).2.irlsWeights = s.irlsWeights ∧
    (alglibObjectiveFunctionAnalyticalDiffS s est rs0 g0).2.irlsWeights
      = s.irlsWeights :=
  ⟨rfl, rfl, by rw [alglibObjectiveS_state]⟩

/-- Claim C7: calling either cost/gradient computation with a null estimate
pointer fails fatally at the `CHECK_NOTNULL` precondition before any cost or
gradient is produced (`none` result), and every non-null estimate passes the
check and yields a result. -/
theorem nullEstimate_fatal (s : IrlsMapSolver) (imageIndex channelIndex : Nat)
    (est : List ℚ) :
    computeDataTermAnalyticalDiffChecked s imageIndex channelIndex none = none ∧
    computeRegularizationAnalyticalDiffChecked s none = none ∧
    (computeDataTermAnalyticalDiffChecked s imageIndex channelIndex
        (some est)).isSome = true ∧
    (computeRegularizationAnalyticalDiffChecked s (some est)).isSome = true :=
  ⟨rfl, rfl, rfl, rfl⟩

/-- Claim C8: two consecutive calls of the objective-and-gradient callback with
the same estimate and the same buffer — the second starting from the solver
state the first call returned — produce the same cost and gradient: the
function is deterministic given fixed solver state. -/
theorem objective_deterministic_across_calls (s : IrlsMapSolver) (est : List ℚ)
    (rs0 rs1 : ℚ) (g0 : List ℚ) :
    (alglibObjectiveFunctionAnalyticalDiffS
        (alglibObjectiveFunctionAnalyticalDiffS s est rs0 g0).2 est rs1 g0).1
      = (alglibObjectiveFunctionAnalyticalDiffS s est rs0 g0).1 := by
  rw [alglibObjectiveS_state]
  simp only [alglibObjectiveFunctionAnalyticalDiffS]

/-- Claim C9: both objective-function variants first zero the residual sum and
every gradient entry, so for buffers of the solver's dimension the returned
cost and gradient do not depend on the buffers' previous contents. -/
theorem objective_zeroes_output_buffers (s : IrlsMapSolver)
    (computeDataTerm : Nat → List ℚ → ℚ × List ℚ)
    (computeRegularization : List ℚ → ℚ × List ℚ) (numImages : Nat)
    (est : List ℚ) (rs0 rs1 : ℚ) (g0 g1 : List ℚ)
    (h0 : g0.length = s.numPixels) (h1 : g1.length = s.numPixels) :
    alglibObjectiveFunctionAnalyticalDiffS s est rs0 g0
      = alglibObjectiveFunctionAnalyticalDiffS s est rs1 g1 ∧
    alglibObjectiveFunction computeDataTerm computeRegularization s.numPixels
        numImages est rs0 g0
      = alglibObjectiveFunction computeDataTerm computeRegularization
        s.numPixels numImages est rs1 g1 := by
  constructor
  · simp only [alglibObjectiveFunctionAnalyticalDiffS,
      zeroLoop_eq_replicate g0 s.numPixels h0,
      zeroLoop_eq_replicate g1 s.numPixels h1]
  · simp only [alglibObjectiveFunction,
      zeroLoop_eq_replicate g0 s.numPixels h0,
      zeroLoop_eq_replicate g1 s.numPixels h1]

/-- Witness for C9: concrete two-pixel buffers with distinct prior contents
give equal results on `demoSolver`. -/
theorem objective_zeroes_output_buffers_witness :
    ([3, 4] : List ℚ).length = demoSolver.numPixels ∧
    ([7, 8] : List ℚ).length = demoSolver.numPixels ∧
    (alglibObjectiveFunctionAnalyticalDiffS demoSolver [1, 2] 5 [3, 4]
      = alglibObjectiveFunctionAnalyticalDiffS demoSolver [1, 2] 0 [7, 8] ∧
     alglibObjectiveFunction (fun _ _ => (0, [])) (fun _ => (0, []))
        demoSolver.numPixels 1 [1, 2] 5 [3, 4]
      = alglibObjectiveFunction (fun _ _ => (0, [])) (fun _ => (0, []))
        demoSolver.numPixels 1 [1, 2] 0 [7, 8]) :=
  ⟨by norm_num [demoSolver], by norm_num [demoSolver],
   objective_zeroes_output_buffers demoSolver (fun _ _ => (0, []))
     (fun _ => (0, [])) 1 [1, 2] 5 0 [3, 4] [7, 8]
     (by norm_num [demoSolver]) (by norm_num [demoSolver])⟩

/-- Claim C10: with zero regularizers configured,
`ComputeRegularizationAnalyticalDiff` on any non-null estimate returns cost 0
and a gradient of length `num_pixels` with every entry 0. -/
theorem regularization_empty_returns_zero (s : IrlsMapSolver) (est : List ℚ)
    (h : s.regularizers = []) :
    computeRegularizationAnalyticalDiffChecked s (some est)
      = some (0, List.replicate s.numPixels 0) := by
  simp [computeRegularizationAnalyticalDiffChecked,
    computeRegularizationAnalyticalDiff, h]

/-- Witness for C10: `demoSolver` with its regularizer list emptied. -/
theorem regularization_empty_returns_zero_witness :
    ({ demoSolver with regularizers := [] } : IrlsMapSolver).regularizers
      = [] ∧
    computeRegularizationAnalyticalDiffChecked
        { demoSolver with regularizers := [] } (some [1, 2])
      = some (0, List.replicate
          ({ demoSolver with regularizers := [] } : IrlsMapSolver).numPixels 0) :=
  ⟨rfl, regularization_empty_returns_zero
    { demoSolver with regularizers := [] } [1, 2] rfl⟩

end SuperResolution
